import Mathlib

/-!
Verification of the nba-stats-proxy request-forwarding logic.

The repository is a single-file Express proxy (`server.js`, with two earlier
revisions of the same file kept alongside, here called `part_000` and
`part_001`).  We shallowly embed the `/nba/teamstats` handler and its helper
functions: JavaScript string operations are modelled character-by-character
on `List Char`, URLs as a host/path/parameter-list record, HTTP exchanges as
explicit `Except` values fed to the (pure) handler function, and the external
`JSON.parse` as an arbitrary parameter `parseJson : String → Option Json`.
-/

namespace NbaProxy

/-! ### JavaScript string primitives

These mirror the ECMAScript operations used by the source
(`trim`, `trimStart`, `startsWith`, `includes`, `slice(0, n)`,
`toLowerCase`, `split(";")[0]`, `Array.prototype.join`) at the level of
characters. -/

/-- Whitespace recognised by JavaScript `trim` (the code points that matter
for HTTP bodies: space, tab, LF, CR, VT, FF, NBSP). -/
def isJsWhitespace (c : Char) : Bool :=
  c = ' ' || c = '\t' || c = '\n' || c = '\r' || c = '\x0b' || c = '\x0c' || c = '\u00a0'

/-- JavaScript `String.prototype.trimStart`. -/
def jsTrimStart (s : String) : String :=
  String.mk (s.toList.dropWhile isJsWhitespace)

/-- JavaScript removal of trailing whitespace (`trimEnd`). -/
def jsTrimEnd (s : String) : String :=
  String.mk (s.toList.rdropWhile isJsWhitespace)

/-- JavaScript `String.prototype.trim`: strip whitespace from both ends. -/
def jsTrim (s : String) : String :=
  jsTrimEnd (jsTrimStart s)

/-- JavaScript `s.slice(0, n)`. -/
def jsSlice (s : String) (n : Nat) : String :=
  String.mk (s.toList.take n)

/-- JavaScript `s.startsWith(pre)`. -/
def jsStartsWith (s pre : String) : Bool :=
  pre.toList.isPrefixOf s.toList

/-- Helper for `jsIncludes`: does `needle` occur in the haystack? -/
def occursAux (needle : List Char) : List Char → Bool
  | [] => needle.isEmpty
  | c :: t => needle.isPrefixOf (c :: t) || occursAux needle t

/-- JavaScript `s.includes(sub)`. -/
def jsIncludes (s sub : String) : Bool :=
  occursAux sub.toList s.toList

/-- JavaScript `s.toLowerCase()` (ASCII case mapping, which is all the code
applies it to: HTTP content-type values). -/
def jsToLower (s : String) : String :=
  String.mk (s.toList.map Char.toLower)

/-- JavaScript `s.split(sep)[0]`: the prefix of `s` before the first `sep`. -/
def jsSplitFirst (s : String) (sep : Char) : String :=
  String.mk (s.toList.takeWhile (fun c => c ≠ sep))

/-- JavaScript `Array.prototype.join(sep)`. -/
def jsJoin (sep : String) : List String → String
  | [] => ""
  | [x] => x
  | x :: y :: t => x ++ sep ++ jsJoin sep (y :: t)

/-! ### Data model

The observable data of the system: an incoming request (the two query
parameters the handler reads), an upstream HTTP response, a network-level
error, and outbound request descriptors. -/

/-- The part of an incoming `/nba/teamstats` request the handler observes:
`req.query.season` and `req.query.seasonType`, each possibly absent. -/
structure IncomingRequest where
  season : Option String
  seasonType : Option String
deriving Repr, DecidableEq

/-- An upstream HTTP response as the handler observes it: status code,
`content-type` header (absent when the server sent none), the list of
`set-cookie` values, the list of response-header keys, and the body decoded
as text (`server.js` decodes its arraybuffer with `Buffer.toString("utf8")`).
-/
structure UpstreamResponse where
  status : Nat
  contentType : Option String
  setCookie : List String
  headerKeys : List String
  body : String
deriving Repr, DecidableEq

/-- A network-level failure thrown by the HTTP client (timeout, connection
refused, ...): the code reads `err.message` and `err.code` from it. -/
structure NetError where
  message : String
  code : Option String
deriving Repr, DecidableEq

/-- A URL: host, path and the ordered search parameters. -/
structure Url where
  host : String
  path : String
  params : List (String × String)
deriving Repr, DecidableEq

/-- `URL.searchParams.set(k, v)`: replace the value if the key is present,
otherwise append the pair at the end. -/
def setParam (u : Url) (k v : String) : Url :=
  if u.params.any (fun p => p.1 = k) then
    { u with params := u.params.map (fun p => if p.1 = k then (k, v) else p) }
  else
    { u with params := u.params ++ [(k, v)] }

/-- Look up a search parameter by key. -/
def paramValue (u : Url) (k : String) : Option String :=
  (u.params.find? (fun p => p.1 = k)).map (fun p => p.2)

/-- An outbound HTTP GET issued by the proxy: target URL and headers. -/
structure OutboundRequest where
  url : Url
  headers : List (String × String)
deriving Repr, DecidableEq

/-- Look up a request header by key. -/
def lookupHeader (hs : List (String × String)) (k : String) : Option String :=
  (hs.find? (fun p => p.1 = k)).map (fun p => p.2)

/-- Is this outbound request the priming GET (host `www.nba.com`)? -/
def isPrimeReq (r : OutboundRequest) : Bool :=
  r.url.host = "www.nba.com"

/-- Is this outbound request the stats GET (host `stats.nba.com`)? -/
def isStatsReq (r : OutboundRequest) : Bool :=
  r.url.host = "stats.nba.com"

/-! ### Axios transport

Every axios call in the repository passes `validateStatus: () => true`, so a
completed HTTP exchange is always delivered as a success value regardless of
its status code; only network-level failures surface as exceptions. -/

/-- The `validateStatus` option the code passes to axios: `() => true`. -/
def validateStatus (_status : Nat) : Bool :=
  true

/-- Axios delivery: a completed response is turned into an error when
`validateStatus` rejects its status (it never does here); network errors
pass through as errors. -/
def axiosSettle (wire : Except NetError UpstreamResponse) :
    Except NetError UpstreamResponse :=
  match wire with
  | .ok r =>
      if validateStatus r.status then .ok r
      else .error { message := "Request failed with status code " ++ toString r.status,
                    code := some "ERR_BAD_RESPONSE" }
  | .error e => .error e

/-! ### server.js: the `/nba/teamstats` handler

Shallow embedding of `app.get("/nba/teamstats")` in `server.js`.  The two
network exchanges the handler performs (the priming GET to `www.nba.com` and
the stats GET to `stats.nba.com`) are supplied as `Except` values; the
handler returns the list of outbound requests it issued, in order, together
with the response it sends to its caller. -/

/-- The Chrome user-agent string used by every request in the repository. -/
def userAgentChrome : String :=
  "Mozilla/5.0 (Windows NT 10.0; Win64; x64) AppleWebKit/537.36 (KHTML, like Gecko) Chrome/120.0.0.0 Safari/537.36"

/-- Headers of the priming GET in `server.js` (lines 160-164). -/
def serverPrimeHeaders : List (String × String) :=
  [("User-Agent", userAgentChrome),
   ("Accept", "text/html,application/xhtml+xml,application/xml;q=0.9,*/*;q=0.8")]

/-- The fixed spoofed-browser headers of the stats GET in `server.js`
(lines 180-192), before the optional `Cookie` entry. -/
def serverStatsBaseHeaders : List (String × String) :=
  [("Accept", "application/json, text/plain, */*"),
   ("Accept-Language", "en-US,en;q=0.9"),
   ("Accept-Encoding", "gzip, deflate, br"),
   ("Connection", "keep-alive"),
   ("Origin", "https://www.nba.com"),
   ("Referer", "https://www.nba.com/stats/teams/traditional"),
   ("User-Agent", userAgentChrome),
   ("x-nba-stats-origin", "stats"),
   ("x-nba-stats-token", "true"),
   ("Sec-Fetch-Site", "same-site"),
   ("Sec-Fetch-Mode", "cors"),
   ("Sec-Fetch-Dest", "empty")]

/-- `setCookies.map((c) => c.split(";")[0]).join("; ")`: each `Set-Cookie`
value truncated at its first `;`, joined with `"; "`. -/
def cookieHeaderOf (setCookies : List String) : String :=
  jsJoin "; " (setCookies.map (fun c => jsSplitFirst c ';'))

/-- The full stats-request header map of `server.js`: the fixed set plus,
when `cookieHeader` is truthy (non-empty), a `Cookie` entry
(`...(cookieHeader ? { "Cookie": cookieHeader } : {})`). -/
def serverStatsHeaders (cookieHeader : String) : List (String × String) :=
  serverStatsBaseHeaders ++
    (if cookieHeader = "" then [] else [("Cookie", cookieHeader)])

/-- The upstream URL built by `server.js` lines 143-152: defaults applied to
the two query parameters, then five `searchParams.set` calls. -/
def serverTeamstatsUrl (req : IncomingRequest) : Url :=
  let season := req.season.getD "2025-26"
  let seasonType := req.seasonType.getD "Regular Season"
  let u : Url := { host := "stats.nba.com", path := "/stats/leaguedashteamstats",
                   params := [] }
  let u := setParam u "Season" season
  let u := setParam u "SeasonType" seasonType
  let u := setParam u "LeagueID" "00"
  let u := setParam u "PerMode" "Totals"
  let u := setParam u "MeasureType" "Base"
  u

/-- The response classifier of `server.js` line 206: lowercased content-type
contains `application/json`, or the 500-character snippet, trimmed, starts
with a left brace. -/
def serverClassifiesAsJson (r : UpstreamResponse) : Bool :=
  jsIncludes (jsToLower (r.contentType.getD "")) "application/json" ||
    jsStartsWith (jsTrim (jsSlice r.body 500)) "\x7b"

/-- The 502 debug payload of `server.js` lines 216-225. -/
structure ServerDebugPayload where
  ok : Bool
  error : String
  upstreamStatus : Nat
  contentType : Option String
  headerKeys : List String
  primeStatus : Nat
  primeSetCookieCount : Nat
  snippet : String
deriving Repr, DecidableEq

/-- The 500 failure payload of `server.js` lines 228-232. -/
structure ServerFailPayload where
  error : String
  details : String
  code : Option String
deriving Repr, DecidableEq

/-- The body the `server.js` handler sends back: the parsed upstream JSON
(pass-through), the 502 debug payload, or the 500 failure payload. -/
inductive ProxyBody (Json : Type) where
  | jsonValue (j : Json)
  | upstreamDebug (p : ServerDebugPayload)
  | requestFailed (p : ServerFailPayload)
deriving Repr, DecidableEq

/-- The handler's response to its caller: HTTP status and body. -/
structure ProxyResponse (Json : Type) where
  status : Nat
  body : ProxyBody Json
deriving Repr, DecidableEq

/-- The priming GET of `server.js` line 156: `GET https://www.nba.com`. -/
def serverPrimeRequest : OutboundRequest :=
  { url := { host := "www.nba.com", path := "/", params := [] },
    headers := serverPrimeHeaders }

/-- The stats GET of `server.js` lines 174-196, with cookies collected from
the priming response. -/
def serverStatsRequest (req : IncomingRequest) (prime : UpstreamResponse) :
    OutboundRequest :=
  { url := serverTeamstatsUrl req,
    headers := serverStatsHeaders (cookieHeaderOf prime.setCookie) }

/-- The 500 response produced by the `catch` block of `server.js`
lines 226-233. -/
def serverFailResponse (Json : Type) (e : NetError) : ProxyResponse Json :=
  { status := 500,
    body := .requestFailed { error := "NBA request failed",
                             details := e.message, code := e.code } }

/-- Shallow embedding of the `/nba/teamstats` handler of `server.js`
(lines 143-234).  Returns the outbound requests issued, in order, and the
response sent to the caller. -/
def serverTeamstatsHandler {Json : Type} (parseJson : String → Option Json)
    (req : IncomingRequest)
    (primeWire statsWire : Except NetError UpstreamResponse) :
    List OutboundRequest × ProxyResponse Json :=
  match axiosSettle primeWire with
  | .error e => ([serverPrimeRequest], serverFailResponse Json e)
  | .ok prime =>
    let statsReq := serverStatsRequest req prime
    match axiosSettle statsWire with
    | .error e => ([serverPrimeRequest, statsReq], serverFailResponse Json e)
    | .ok nbaResp =>
      let rawText := nbaResp.body
      let debugResp : ProxyResponse Json :=
        { status := 502,
          body := .upstreamDebug
            { ok := false,
              error := "Upstream did not return JSON",
              upstreamStatus := nbaResp.status,
              contentType := nbaResp.contentType,
              headerKeys := nbaResp.headerKeys,
              primeStatus := prime.status,
              primeSetCookieCount := prime.setCookie.length,
              snippet := jsSlice rawText 500 } }
      if serverClassifiesAsJson nbaResp then
        match parseJson rawText with
        | some j =>
            ([serverPrimeRequest, statsReq],
             { status := nbaResp.status, body := .jsonValue j })
        | none => ([serverPrimeRequest, statsReq], debugResp)
      else ([serverPrimeRequest, statsReq], debugResp)

/-! ### part_000: the cookie-jar revision

The `part_000` revision factors the logic into named helpers
(`baseBrowserHeaders`, `primeNbaCookies`, `buildLeagueDashTeamStatsUrl`,
`statsHeaders`) and routes all requests through an axios client wrapped
around a shared `tough-cookie` jar.  Its `/nba/teamstats` handler has no
`try`/`catch`, so a thrown network error propagates out of the handler;
we model that by returning the response inside `Except`. -/

/-- `baseBrowserHeaders()` of `part_000` lines 48-65: a nullary function
returning a fixed header object. -/
def baseBrowserHeaders : List (String × String) :=
  [("Accept", "application/json, text/plain, */*"),
   ("Accept-Language", "en-US,en;q=0.9"),
   ("Accept-Encoding", "gzip, deflate, br"),
   ("Cache-Control", "no-cache"),
   ("Pragma", "no-cache"),
   ("Connection", "keep-alive"),
   ("User-Agent", userAgentChrome),
   ("sec-ch-ua", "\"Chromium\";v=\"120\", \"Not=A?Brand\";v=\"8\""),
   ("sec-ch-ua-mobile", "?0"),
   ("sec-ch-ua-platform", "\"Windows\""),
   ("Sec-Fetch-Site", "same-site"),
   ("Sec-Fetch-Mode", "cors"),
   ("Sec-Fetch-Dest", "empty")]

/-- JavaScript object spread override `{ ...hs, k: v }`: replace the value
in place when the key is present, otherwise append the pair. -/
def headerSet (hs : List (String × String)) (k v : String) :
    List (String × String) :=
  if hs.any (fun p => p.1 = k) then
    hs.map (fun p => if p.1 = k then (k, v) else p)
  else hs ++ [(k, v)]

/-- Headers of the priming GET in `primeNbaCookies` (`part_000` lines
75-81): the base browser headers with `Accept` overridden to an HTML
accept string. -/
def part000PrimeHeaders : List (String × String) :=
  headerSet baseBrowserHeaders "Accept"
    "text/html,application/xhtml+xml,application/xml;q=0.9,*/*;q=0.8"

/-- `statsHeaders()` of `part_000` lines 142-150: a nullary function
returning the base browser headers plus the four NBA-specific entries. -/
def statsHeaders : List (String × String) :=
  baseBrowserHeaders ++
    [("Origin", "https://www.nba.com"),
     ("Referer", "https://www.nba.com/stats/teams/traditional"),
     ("x-nba-stats-origin", "stats"),
     ("x-nba-stats-token", "true")]

/-- `buildLeagueDashTeamStatsUrl` of `part_000` lines 94-137: the upstream
URL with the two variable parameters and all the fixed filter defaults. -/
def buildLeagueDashTeamStatsUrl (season seasonType : String) : Url :=
  let u : Url := { host := "stats.nba.com", path := "/stats/leaguedashteamstats",
                   params := [] }
  let u := setParam u "LeagueID" "00"
  let u := setParam u "Season" season
  let u := setParam u "SeasonType" seasonType
  let u := setParam u "PerMode" "Totals"
  let u := setParam u "MeasureType" "Base"
  let u := setParam u "Conference" ""
  let u := setParam u "Division" ""
  let u := setParam u "Location" ""
  let u := setParam u "Outcome" ""
  let u := setParam u "PORound" "0"
  let u := setParam u "DateFrom" ""
  let u := setParam u "DateTo" ""
  let u := setParam u "OpponentTeamID" "0"
  let u := setParam u "VsConference" ""
  let u := setParam u "VsDivision" ""
  let u := setParam u "TeamID" "0"
  let u := setParam u "GameSegment" ""
  let u := setParam u "Period" "0"
  let u := setParam u "LastNGames" "0"
  let u := setParam u "Month" "0"
  let u := setParam u "SeasonSegment" ""
  let u := setParam u "ShotClockRange" ""
  let u := setParam u "GameScope" ""
  let u := setParam u "PlayerExperience" ""
  let u := setParam u "PlayerPosition" ""
  let u := setParam u "StarterBench" ""
  let u := setParam u "PlusMinus" "N"
  let u := setParam u "PaceAdjust" "N"
  let u := setParam u "Rank" "N"
  u

/-- The priming GET of `primeNbaCookies` (`part_000` line 73):
`GET https://www.nba.com/stats/teams/traditional`. -/
def part000PrimeRequest : OutboundRequest :=
  { url := { host := "www.nba.com", path := "/stats/teams/traditional",
             params := [] },
    headers := part000PrimeHeaders }

/-- The diagnostics returned by `primeNbaCookies` (`part_000` lines 84-88). -/
structure PrimeDiag where
  primeStatus : Nat
  primeSetCookieCount : Nat
deriving Repr, DecidableEq

/-- The 502 debug payload of `part_000` lines 243-250 (the body is always a
string in this model, as `responseType: "text"` makes it in the code, so the
snippet is always present). -/
structure Part000DebugPayload where
  ok : Bool
  prime : PrimeDiag
  upstreamStatus : Nat
  contentType : Option String
  headerKeys : List String
  snippet : Option String
deriving Repr, DecidableEq

/-- The body the `part_000` handler sends back: parsed JSON pass-through or
the 502 debug payload. -/
inductive Part000Body (Json : Type) where
  | jsonValue (j : Json)
  | upstreamDebug (p : Part000DebugPayload)
deriving Repr, DecidableEq

/-- A response of the `part_000` handler. -/
structure Part000Response (Json : Type) where
  status : Nat
  body : Part000Body Json
deriving Repr, DecidableEq

/-- The stats GET of `part_000` lines 226-229, with the fixed
`statsHeaders()` map (cookies travel in the shared jar, not in an explicit
header). -/
def part000StatsRequest (req : IncomingRequest) : OutboundRequest :=
  { url := buildLeagueDashTeamStatsUrl (req.season.getD "2025-26")
             (req.seasonType.getD "Regular Season"),
    headers := statsHeaders }

/-- Shallow embedding of the `/nba/teamstats` handler of `part_000`
(lines 215-251).  There is no `try`/`catch`: a network error from either
exchange propagates, which this model renders as an `Except.error` result
in place of a response. -/
def part000TeamstatsHandler {Json : Type} (parseJson : String → Option Json)
    (req : IncomingRequest)
    (primeWire statsWire : Except NetError UpstreamResponse) :
    List OutboundRequest × Except NetError (Part000Response Json) :=
  match axiosSettle primeWire with
  | .error e => ([part000PrimeRequest], .error e)
  | .ok primeResp =>
    let prime : PrimeDiag :=
      { primeStatus := primeResp.status,
        primeSetCookieCount := primeResp.setCookie.length }
    let statsReq := part000StatsRequest req
    match axiosSettle statsWire with
    | .error e => ([part000PrimeRequest, statsReq], .error e)
    | .ok upstream =>
      let debugResp : Part000Response Json :=
        { status := 502,
          body := .upstreamDebug
            { ok := false,
              prime := prime,
              upstreamStatus := upstream.status,
              contentType := upstream.contentType,
              headerKeys := upstream.headerKeys,
              snippet := some (jsSlice upstream.body 1200) } }
      if jsStartsWith (jsTrim upstream.body) "\x7b" then
        match parseJson upstream.body with
        | some j =>
            ([part000PrimeRequest, statsReq],
             .ok { status := upstream.status, body := .jsonValue j })
        | none => ([part000PrimeRequest, statsReq], .ok debugResp)
      else ([part000PrimeRequest, statsReq], .ok debugResp)

/-! ### Cross-request state

The only module-level mutable values are the shared cookie jar of `part_000`
(`const jar = new CookieJar()`) and the keep-alive agent's connection pool
(`const httpsAgent = new https.Agent({ keepAlive: true })`).  We thread an
explicit server state through the handlers; the jar and pool evolve by
library transition functions left abstract, while the `rest` component
stands for any other state a subsequent request could observe. -/

/-- Cross-request server state: the cookie jar, the keep-alive connection
pool, and (for the frame property) any other state `rest`. -/
structure ServerState (Jar Pool Rest : Type) where
  jar : Jar
  pool : Pool
  rest : Rest

/-- The `part_000` handler with the shared state threaded through: the
cookie jar absorbs each completed exchange (`tough-cookie` semantics left
abstract as `updateJar`), the agent pool evolves by `updatePool`, and
nothing else is written. -/
def part000HandlerWithState {Json Jar Pool Rest : Type}
    (updateJar : Jar → Except NetError UpstreamResponse → Jar)
    (updatePool : Pool → Pool)
    (parseJson : String → Option Json) (req : IncomingRequest)
    (st : ServerState Jar Pool Rest)
    (primeWire statsWire : Except NetError UpstreamResponse) :
    ServerState Jar Pool Rest ×
      (List OutboundRequest × Except NetError (Part000Response Json)) :=
  let jarAfterPrime := updateJar st.jar primeWire
  let jarAfterStats :=
    match axiosSettle primeWire with
    | .ok _ => updateJar jarAfterPrime statsWire
    | .error _ => jarAfterPrime
  ({ jar := jarAfterStats, pool := updatePool st.pool, rest := st.rest },
   part000TeamstatsHandler parseJson req primeWire statsWire)

/-- The `server.js` handler with the shared state threaded through: it has
no cookie jar, so only the keep-alive pool evolves. -/
def serverHandlerWithState {Json Pool Rest : Type}
    (updatePool : Pool → Pool)
    (parseJson : String → Option Json) (req : IncomingRequest)
    (st : ServerState Unit Pool Rest)
    (primeWire statsWire : Except NetError UpstreamResponse) :
    ServerState Unit Pool Rest ×
      (List OutboundRequest × ProxyResponse Json) :=
  ({ jar := st.jar, pool := updatePool st.pool, rest := st.rest },
   serverTeamstatsHandler parseJson req primeWire statsWire)

/-! ### The specification's classification rule, and concrete fixtures -/

/-- The classification rule as the specification's sentence states it, for
comparison with the code's `serverClassifiesAsJson`: the content-type
(case-insensitively) contains `application/json`, or the body prefix,
after trimming leading whitespace, starts with a left brace. -/
def specJsonClassification (r : UpstreamResponse) : Prop :=
  jsIncludes (jsToLower (r.contentType.getD "")) "application/json" = true ∨
    jsStartsWith (jsTrimStart (jsSlice r.body 500)) "\x7b" = true

/-- A concrete JSON parser fragment for witnesses: accepts the body used by
the witness responses. -/
def pjW : String → Option Nat := fun s => if s = "\x7b\x7d" then some 1 else none

/-- A concrete incoming request with both query parameters absent. -/
def reqW : IncomingRequest := { season := none, seasonType := none }

/-- A concrete priming response that sets one cookie. -/
def primeW : UpstreamResponse :=
  { status := 200, contentType := some "text/html",
    setCookie := ["ak_bmsc=abc; Path=/; Domain=.nba.com"],
    headerKeys := ["content-type", "set-cookie"], body := "<html>" }

/-- A concrete well-formed JSON upstream response. -/
def respJsonW : UpstreamResponse :=
  { status := 200, contentType := some "application/json; charset=utf-8",
    setCookie := [], headerKeys := ["content-type"], body := "\x7b\x7d" }

/-- A concrete blocked (HTML) upstream response. -/
def respHtmlW : UpstreamResponse :=
  { status := 403, contentType := some "text/html", setCookie := [],
    headerKeys := ["content-type"], body := "<html>blocked</html>" }

/-- A concrete upstream response with an error status but a JSON body. -/
def respErrW : UpstreamResponse :=
  { status := 404, contentType := some "application/json", setCookie := [],
    headerKeys := ["content-type"], body := "\x7b\x7d" }

/-! ### Supporting lemmas -/

/-- A singleton list is a prefix exactly when it is the head. -/
lemma isPrefixOf_singleton (c : Char) (xs : List Char) :
    [c].isPrefixOf xs = (xs.head? == some c) := by
  cases xs with
  | nil => rfl
  | cons x t => simp [List.isPrefixOf, eq_comm]

/-- Removing trailing whitespace does not change whether a character list
starts with a left brace (a non-whitespace character). -/
lemma isPrefixOf_brace_rdropWhile (l : List Char) :
    ['\x7b'].isPrefixOf (l.rdropWhile isJsWhitespace) =
      ['\x7b'].isPrefixOf l := by
  rcases h : l.rdropWhile isJsWhitespace with _ | ⟨x, xs⟩
  · have hall := (List.rdropWhile_eq_nil_iff).mp h
    cases l with
    | nil => rfl
    | cons y t =>
      have hy : isJsWhitespace y = true := hall y (by simp)
      have hne : y ≠ '\x7b' := by
        intro hEq
        rw [hEq] at hy
        exact absurd hy (by decide)
      simp [isPrefixOf_singleton, List.head?, hne]
  · have hpre : (x :: xs) <+: l := by
      rw [← h]
      exact List.rdropWhile_prefix _ _
    obtain ⟨t, ht⟩ := hpre
    rw [← ht]
    simp [isPrefixOf_singleton]

/-- The two-sided trim of the source and the leading-only trim of the
specification agree on the starts-with-a-brace test. -/
lemma jsStartsWith_jsTrim_brace (s : String) :
    jsStartsWith (jsTrim s) "\x7b" = jsStartsWith (jsTrimStart s) "\x7b" := by
  unfold jsTrim jsTrimEnd jsStartsWith
  show ['\x7b'].isPrefixOf ((jsTrimStart s).toList.rdropWhile isJsWhitespace) =
    ['\x7b'].isPrefixOf (jsTrimStart s).toList
  exact isPrefixOf_brace_rdropWhile _

/-- When the upstream response is classified as JSON and its body parses,
the `server.js` handler passes status and parsed body through. -/
lemma serverHandler_passthrough {J : Type} (pj : String → Option J)
    (req : IncomingRequest) (prime nbaResp : UpstreamResponse) (j : J)
    (hclass : serverClassifiesAsJson nbaResp = true)
    (hparse : pj nbaResp.body = some j) :
    (serverTeamstatsHandler pj req (.ok prime) (.ok nbaResp)).2 =
      { status := nbaResp.status, body := .jsonValue j } := by
  simp [serverTeamstatsHandler, axiosSettle, validateStatus, hclass, hparse]

/-- When priming succeeds, the `server.js` handler issues exactly the
priming request followed by the stats request, whatever the stats outcome. -/
lemma server_trace {J : Type} (pj : String → Option J)
    (req : IncomingRequest) (prime : UpstreamResponse)
    (sw : Except NetError UpstreamResponse) :
    (serverTeamstatsHandler pj req (.ok prime) sw).1 =
      [serverPrimeRequest, serverStatsRequest req prime] := by
  cases sw with
  | error e => rfl
  | ok r =>
    cases hc : serverClassifiesAsJson r with
    | false => simp [serverTeamstatsHandler, axiosSettle, validateStatus, hc]
    | true =>
      cases hp : pj r.body <;>
        simp [serverTeamstatsHandler, axiosSettle, validateStatus, hc, hp]

/-- When priming succeeds, the `part_000` handler issues exactly the priming
request followed by the stats request, whatever the stats outcome. -/
lemma part000_trace {J : Type} (pj : String → Option J)
    (req : IncomingRequest) (prime : UpstreamResponse)
    (sw : Except NetError UpstreamResponse) :
    (part000TeamstatsHandler pj req (.ok prime) sw).1 =
      [part000PrimeRequest, part000StatsRequest req] := by
  cases sw with
  | error e => rfl
  | ok r =>
    cases hc : jsStartsWith (jsTrim r.body) "\x7b" with
    | false => simp [part000TeamstatsHandler, axiosSettle, validateStatus, hc]
    | true =>
      cases hp : pj r.body <;>
        simp [part000TeamstatsHandler, axiosSettle, validateStatus, hc, hp]

/-- When priming throws, the `server.js` handler has issued only the priming
request. -/
lemma server_trace_primeErr {J : Type} (pj : String → Option J)
    (req : IncomingRequest) (e : NetError)
    (sw : Except NetError UpstreamResponse) :
    (serverTeamstatsHandler pj req (.error e) sw).1 = [serverPrimeRequest] := rfl

/-- When priming throws, the `part_000` handler has issued only the priming
request. -/
lemma part000_trace_primeErr {J : Type} (pj : String → Option J)
    (req : IncomingRequest) (e : NetError)
    (sw : Except NetError UpstreamResponse) :
    (part000TeamstatsHandler pj req (.error e) sw).1 = [part000PrimeRequest] := rfl

/-- The `Cookie` entry of the stats headers is present exactly when the
cookie header string is non-empty, and then carries that string. -/
lemma lookupHeader_cookie (ch : String) :
    lookupHeader (serverStatsHeaders ch) "Cookie" =
      if ch = "" then none else some ch := by
  by_cases hch : ch = "" <;>
    simp [serverStatsHeaders, serverStatsBaseHeaders, lookupHeader, hch]

/-- The priming request of `server.js` does not target the stats host. -/
lemma isStatsReq_serverPrime : isStatsReq serverPrimeRequest = false := rfl

/-- The priming request of `server.js` targets `www.nba.com`. -/
lemma isPrimeReq_serverPrime : isPrimeReq serverPrimeRequest = true := rfl

/-- The stats request of `server.js` targets `stats.nba.com`. -/
lemma isStatsReq_serverStats (req : IncomingRequest) (prime : UpstreamResponse) :
    isStatsReq (serverStatsRequest req prime) = true := rfl

/-- The stats request of `server.js` does not target the priming host. -/
lemma isPrimeReq_serverStats (req : IncomingRequest) (prime : UpstreamResponse) :
    isPrimeReq (serverStatsRequest req prime) = false := rfl

/-- The priming request of `part_000` does not target the stats host. -/
lemma isStatsReq_part000Prime : isStatsReq part000PrimeRequest = false := rfl

/-- The priming request of `part_000` targets `www.nba.com`. -/
lemma isPrimeReq_part000Prime : isPrimeReq part000PrimeRequest = true := rfl

/-- Updating a search parameter does not change the host. -/
lemma setParam_host (u : Url) (k v : String) : (setParam u k v).host = u.host := by
  unfold setParam
  split <;> rfl

/-- Updating a search parameter does not change the path. -/
lemma setParam_path (u : Url) (k v : String) : (setParam u k v).path = u.path := by
  unfold setParam
  split <;> rfl

/-- The `part_000` upstream URL targets the stats host. -/
lemma build_host (s t : String) :
    (buildLeagueDashTeamStatsUrl s t).host = "stats.nba.com" := by
  simp [buildLeagueDashTeamStatsUrl, setParam_host]

/-- The `part_000` upstream URL targets the league-dash path. -/
lemma build_path (s t : String) :
    (buildLeagueDashTeamStatsUrl s t).path = "/stats/leaguedashteamstats" := by
  simp [buildLeagueDashTeamStatsUrl, setParam_path]

/-- The stats request of `part_000` targets `stats.nba.com`. -/
lemma isStatsReq_part000Stats (req : IncomingRequest) :
    isStatsReq (part000StatsRequest req) = true := by
  simp [isStatsReq, part000StatsRequest, build_host]

/-- The stats request of `part_000` does not target the priming host. -/
lemma isPrimeReq_part000Stats (req : IncomingRequest) :
    isPrimeReq (part000StatsRequest req) = false := by
  simp [isPrimeReq, part000StatsRequest, build_host]

set_option maxHeartbeats 1000000 in
/-- The five query parameters named by the specification, as carried by the
`part_000` upstream URL. -/
lemma build_params (s t : String) :
    paramValue (buildLeagueDashTeamStatsUrl s t) "Season" = some s ∧
    paramValue (buildLeagueDashTeamStatsUrl s t) "SeasonType" = some t ∧
    paramValue (buildLeagueDashTeamStatsUrl s t) "LeagueID" = some "00" ∧
    paramValue (buildLeagueDashTeamStatsUrl s t) "PerMode" = some "Totals" ∧
    paramValue (buildLeagueDashTeamStatsUrl s t) "MeasureType" = some "Base" := by
  refine ⟨?_, ?_, ?_, ?_, ?_⟩ <;>
    simp [buildLeagueDashTeamStatsUrl, setParam, paramValue]

/-! ### The claims -/

/-- C1: for every request to `/nba/teamstats` whose upstream response is
classified as JSON and whose body parses as well-formed JSON, the proxy
responds with exactly the upstream's HTTP status code and the upstream
response body (its parsed JSON value, which `res.json` re-serialises)
unchanged, rather than a status or body of its own. -/
theorem c1_teamstats_json_passthrough {J : Type} (pj : String → Option J)
    (req : IncomingRequest) (prime nbaResp : UpstreamResponse) (j : J)
    (hclass : serverClassifiesAsJson nbaResp = true)
    (hparse : pj nbaResp.body = some j) :
    (serverTeamstatsHandler pj req (.ok prime) (.ok nbaResp)).2 =
      { status := nbaResp.status, body := .jsonValue j } :=
  serverHandler_passthrough pj req prime nbaResp j hclass hparse

/-- Witness for C1 at a concrete JSON upstream response. -/
theorem c1_teamstats_json_passthrough_witness :
    serverClassifiesAsJson respJsonW = true ∧
    (serverTeamstatsHandler pjW reqW (.ok primeW) (.ok respJsonW)).2 =
      { status := respJsonW.status, body := .jsonValue 1 } :=
  ⟨by decide, c1_teamstats_json_passthrough pjW reqW primeW respJsonW 1
    (by decide) (by decide)⟩

/-- C2: the response classifier of the proxy treats an upstream response as
JSON (attempting pass-through) if and only if its content-type contains
`application/json` (the code compares lowercased) or the body prefix, after
trimming leading whitespace, starts with a left brace. -/
theorem c2_classifier_iff (r : UpstreamResponse) :
    serverClassifiesAsJson r = true ↔ specJsonClassification r := by
  unfold serverClassifiesAsJson specJsonClassification
  rw [Bool.or_eq_true, jsStartsWith_jsTrim_brace]

/-- C3: for every request whose upstream response is not classified as JSON
(or whose body fails to parse), the proxy responds 502 with a payload
carrying the upstream status, the upstream content-type, and a diagnostic
snippet that is the 500-character prefix of the upstream body. -/
theorem c3_non_json_502 {J : Type} (pj : String → Option J)
    (req : IncomingRequest) (prime nbaResp : UpstreamResponse)
    (h : serverClassifiesAsJson nbaResp = false ∨ pj nbaResp.body = none) :
    (serverTeamstatsHandler pj req (.ok prime) (.ok nbaResp)).2 =
      { status := 502,
        body := .upstreamDebug
          { ok := false,
            error := "Upstream did not return JSON",
            upstreamStatus := nbaResp.status,
            contentType := nbaResp.contentType,
            headerKeys := nbaResp.headerKeys,
            primeStatus := prime.status,
            primeSetCookieCount := prime.setCookie.length,
            snippet := jsSlice nbaResp.body 500 } } := by
  rcases h with h | h
  · simp [serverTeamstatsHandler, axiosSettle, validateStatus, h]
  · cases hc : serverClassifiesAsJson nbaResp with
    | false => simp [serverTeamstatsHandler, axiosSettle, validateStatus, hc]
    | true => simp [serverTeamstatsHandler, axiosSettle, validateStatus, hc, h]

/-- Witness for C3 at a concrete blocked HTML upstream response. -/
theorem c3_non_json_502_witness :
    serverClassifiesAsJson respHtmlW = false ∧
    (serverTeamstatsHandler pjW reqW (.ok primeW) (.ok respHtmlW)).2 =
      { status := 502,
        body := .upstreamDebug
          { ok := false,
            error := "Upstream did not return JSON",
            upstreamStatus := respHtmlW.status,
            contentType := respHtmlW.contentType,
            headerKeys := respHtmlW.headerKeys,
            primeStatus := primeW.status,
            primeSetCookieCount := primeW.setCookie.length,
            snippet := jsSlice respHtmlW.body 500 } } :=
  ⟨by decide, c3_non_json_502 pjW reqW primeW respHtmlW (Or.inl (by decide))⟩

set_option maxHeartbeats 1000000 in
/-- C4: the upstream URL is built from `season` and `seasonType`, defaulting
to `2025-26` and `Regular Season`, and always carries `LeagueID=00`,
`PerMode=Totals` and `MeasureType=Base` on the path
`/stats/leaguedashteamstats` of host `stats.nba.com` — both in `server.js`
and in the `part_000` URL builder used by its handler. -/
theorem c4_upstream_url (req : IncomingRequest) (s t : String) :
    (serverTeamstatsUrl req).host = "stats.nba.com" ∧
    (serverTeamstatsUrl req).path = "/stats/leaguedashteamstats" ∧
    paramValue (serverTeamstatsUrl req) "Season" =
      some (req.season.getD "2025-26") ∧
    paramValue (serverTeamstatsUrl req) "SeasonType" =
      some (req.seasonType.getD "Regular Season") ∧
    paramValue (serverTeamstatsUrl req) "LeagueID" = some "00" ∧
    paramValue (serverTeamstatsUrl req) "PerMode" = some "Totals" ∧
    paramValue (serverTeamstatsUrl req) "MeasureType" = some "Base" ∧
    (buildLeagueDashTeamStatsUrl s t).host = "stats.nba.com" ∧
    (buildLeagueDashTeamStatsUrl s t).path = "/stats/leaguedashteamstats" ∧
    paramValue (buildLeagueDashTeamStatsUrl s t) "Season" = some s ∧
    paramValue (buildLeagueDashTeamStatsUrl s t) "SeasonType" = some t ∧
    paramValue (buildLeagueDashTeamStatsUrl s t) "LeagueID" = some "00" ∧
    paramValue (buildLeagueDashTeamStatsUrl s t) "PerMode" = some "Totals" ∧
    paramValue (buildLeagueDashTeamStatsUrl s t) "MeasureType" = some "Base" ∧
    (part000StatsRequest req).url =
      buildLeagueDashTeamStatsUrl (req.season.getD "2025-26")
        (req.seasonType.getD "Regular Season") := by
  obtain ⟨h1, h2, h3, h4, h5⟩ := build_params s t
  refine ⟨rfl, rfl, rfl, rfl, rfl, rfl, rfl, build_host s t, build_path s t,
    h1, h2, h3, h4, h5, ?_⟩
  simp only [part000StatsRequest]

/-- C5: every handled request is preceded by exactly one priming GET to
`www.nba.com`, issued before the stats request; the cookies collected from
the priming response (each `Set-Cookie` value truncated at its first `;`,
joined with `"; "`) travel as the `Cookie` header of the stats request, and
when the priming response sets no cookies no `Cookie` header is attached. -/
theorem c5_priming_and_cookies {J : Type} (pj : String → Option J)
    (req : IncomingRequest) (prime : UpstreamResponse)
    (sw : Except NetError UpstreamResponse) :
    (serverTeamstatsHandler pj req (.ok prime) sw).1 =
      [serverPrimeRequest, serverStatsRequest req prime] ∧
    isPrimeReq serverPrimeRequest = true ∧
    isStatsReq (serverStatsRequest req prime) = true ∧
    (serverStatsRequest req prime).headers =
      serverStatsHeaders (cookieHeaderOf prime.setCookie) ∧
    lookupHeader (serverStatsRequest req prime).headers "Cookie" =
      (if cookieHeaderOf prime.setCookie = "" then none
       else some (cookieHeaderOf prime.setCookie)) ∧
    cookieHeaderOf [] = "" :=
  ⟨server_trace pj req prime sw, rfl, rfl, rfl, lookupHeader_cookie _, rfl⟩

/-- C6: the header-building functions return a fixed, hardcoded header set:
the `part_000` handler attaches `part000PrimeHeaders` and `statsHeaders`
whatever the inputs, and the header maps the `server.js` handler attaches do
not depend on the incoming request (for a fixed priming response). -/
theorem c6_headers_fixed {J K : Type} (pj : String → Option J)
    (pk : String → Option K) (req req' : IncomingRequest)
    (prime prime' : UpstreamResponse)
    (sw sw' : Except NetError UpstreamResponse) :
    ((part000TeamstatsHandler pj req (.ok prime) sw).1.map
        OutboundRequest.headers = [part000PrimeHeaders, statsHeaders]) ∧
    ((part000TeamstatsHandler pk req' (.ok prime') sw').1.map
        OutboundRequest.headers = [part000PrimeHeaders, statsHeaders]) ∧
    ((serverTeamstatsHandler pj req (.ok prime) sw).1.map
        OutboundRequest.headers =
      (serverTeamstatsHandler pk req' (.ok prime) sw').1.map
        OutboundRequest.headers) := by
  rw [part000_trace, part000_trace, server_trace, server_trace]
  exact ⟨rfl, rfl, rfl⟩

/-- C7: a handled request causes at most one stats GET and at most one
priming GET, whatever the upstream outcomes — there is no retry. -/
theorem c7_at_most_one_stats_request {J : Type} (pj : String → Option J)
    (req : IncomingRequest) (pw sw : Except NetError UpstreamResponse) :
    ((serverTeamstatsHandler pj req pw sw).1.countP isStatsReq ≤ 1 ∧
     (serverTeamstatsHandler pj req pw sw).1.countP isPrimeReq ≤ 1) ∧
    ((part000TeamstatsHandler pj req pw sw).1.countP isStatsReq ≤ 1 ∧
     (part000TeamstatsHandler pj req pw sw).1.countP isPrimeReq ≤ 1) := by
  cases pw with
  | error e =>
    rw [server_trace_primeErr, part000_trace_primeErr]
    refine ⟨⟨?_, ?_⟩, ?_, ?_⟩ <;>
      simp [List.countP_cons, List.countP_nil, isStatsReq_serverPrime,
        isPrimeReq_serverPrime, isStatsReq_part000Prime, isPrimeReq_part000Prime]
  | ok prime =>
    rw [server_trace, part000_trace]
    refine ⟨⟨?_, ?_⟩, ?_, ?_⟩ <;>
      simp [List.countP_cons, List.countP_nil, isStatsReq_serverPrime,
        isPrimeReq_serverPrime, isStatsReq_serverStats, isPrimeReq_serverStats,
        isStatsReq_part000Prime, isPrimeReq_part000Prime,
        isStatsReq_part000Stats, isPrimeReq_part000Stats]

/-- C8: handling a request leaves every component of the cross-request
server state unchanged except the shared cookie jar and the keep-alive
connection pool: restoring just those two fields of the post-state yields
the pre-state, for the `part_000` handler and the `server.js` handler. -/
theorem c8_state_frame {J Jar Pool Rest : Type}
    (uJar : Jar → Except NetError UpstreamResponse → Jar) (uPool : Pool → Pool)
    (pj : String → Option J) (req req' : IncomingRequest)
    (st : ServerState Jar Pool Rest) (st' : ServerState Unit Pool Rest)
    (pw sw pw' sw' : Except NetError UpstreamResponse) :
    ({ (part000HandlerWithState uJar uPool pj req st pw sw).1 with
        jar := st.jar, pool := st.pool } = st) ∧
    ({ (serverHandlerWithState uPool pj req' st' pw' sw').1 with
        jar := st'.jar, pool := st'.pool } = st') :=
  ⟨rfl, rfl⟩

/-- C9: when the priming request or the stats request throws, the
`server.js` handler catches the exception and responds 500 with a JSON
payload carrying an error message, the exception's message, and its code. -/
theorem c9_exceptions_become_500 {J : Type} (pj : String → Option J)
    (req : IncomingRequest) (prime : UpstreamResponse) (e : NetError)
    (sw : Except NetError UpstreamResponse) :
    ((serverTeamstatsHandler pj req (.error e) sw).2 =
      { status := 500,
        body := .requestFailed { error := "NBA request failed",
                                 details := e.message, code := e.code } }) ∧
    ((serverTeamstatsHandler pj req (.ok prime) (.error e)).2 =
      { status := 500,
        body := .requestFailed { error := "NBA request failed",
                                 details := e.message, code := e.code } }) :=
  ⟨rfl, rfl⟩

/-- C10: `validateStatus` accepts every status, so a completed upstream
response is never turned into a transport failure, and an upstream error
status with a well-formed JSON body is passed through with that same status
and body rather than converted into a proxy-generated error. -/
theorem c10_error_status_passthrough {J : Type} (pj : String → Option J)
    (req : IncomingRequest) (prime nbaResp : UpstreamResponse) (j : J)
    (hclass : serverClassifiesAsJson nbaResp = true)
    (hparse : pj nbaResp.body = some j)
    (hstatus : ¬(200 ≤ nbaResp.status ∧ nbaResp.status < 300)) :
    validateStatus nbaResp.status = true ∧
    axiosSettle (.ok nbaResp) = .ok nbaResp ∧
    (serverTeamstatsHandler pj req (.ok prime) (.ok nbaResp)).2 =
      { status := nbaResp.status, body := .jsonValue j } :=
  ⟨rfl, rfl, serverHandler_passthrough pj req prime nbaResp j hclass hparse⟩

/-- Witness for C10 at a concrete 404 upstream response with a JSON body. -/
theorem c10_error_status_passthrough_witness :
    validateStatus respErrW.status = true ∧
    axiosSettle (.ok respErrW) = .ok respErrW ∧
    (serverTeamstatsHandler pjW reqW (.ok primeW) (.ok respErrW)).2 =
      { status := respErrW.status, body := .jsonValue 1 } :=
  c10_error_status_passthrough pjW reqW primeW respErrW 1
    (by decide) (by decide) (by decide)

end NbaProxy
